import Mathlib

/-!
Verification development for the repository-source descriptor module
(`usr/lib/linuxmint/mintSources/RepositoryInformation.py`).

The module is embedded shallowly.  Python's dynamic values that flow
through this module are modelled by `PyVal` (the module only ever handles
`None`, booleans, strings and lists of strings); Python exceptions are
modelled by `Except PyErr`.  All string manipulation is re-implemented
structurally over `List Char` so that every definition evaluates inside
the kernel.  Inputs are single lines, so the embedding of the options
regular expression assumes the line contains no newline character.
-/

/-- The Python runtime values that flow through `RepositoryInformation.py`:
`None`, booleans, strings and lists of strings. -/
inductive PyVal where
  | none : PyVal
  | bool (b : Bool) : PyVal
  | str (s : String) : PyVal
  | list (l : List String) : PyVal
  deriving DecidableEq

/-- The Python exceptions that the module can raise. -/
inductive PyErr where
  | attributeError : PyErr
  | indexError : PyErr
  | typeError : PyErr
  deriving DecidableEq

/-- Python truthiness (`bool(v)`) for the values of `PyVal`. -/
def pyTruthy : PyVal → Bool
  | PyVal.none => false
  | PyVal.bool b => b
  | PyVal.str s => !s.data.isEmpty
  | PyVal.list l => !l.isEmpty

/-- Whether a `PyVal` is a Python `bool`. -/
def PyVal.isBool : PyVal → Bool
  | PyVal.bool _ => true
  | _ => false

/-- Helper for `str.split()`: walks the characters, accumulating the
current (reversed) token; whitespace ends a token, empty tokens are
discarded. -/
def wsSplitAux : List Char → List Char → List String
  | [], cur => if cur.isEmpty then [] else [⟨cur.reverse⟩]
  | c :: cs, cur =>
    if c.isWhitespace then
      if cur.isEmpty then wsSplitAux cs [] else ⟨cur.reverse⟩ :: wsSplitAux cs []
    else wsSplitAux cs (c :: cur)

/-- Python `s.split()` (split on whitespace runs, dropping empty tokens).
This is also the value of `list(filter(None, s.split()))`. -/
def pySplitWs (s : String) : List String := wsSplitAux s.data []

/-- Helper for `str.split(sep)` with an explicit one-character separator:
empty pieces are kept, and the result is never empty. -/
def sepSplitAux (sep : Char) : List Char → List Char → List String
  | [], cur => [⟨cur.reverse⟩]
  | c :: cs, cur =>
    if c = sep then ⟨cur.reverse⟩ :: sepSplitAux sep cs [] else sepSplitAux sep cs (c :: cur)

/-- Python `s.split(sep)` for a one-character separator. -/
def pySplitOn (sep : Char) (s : String) : List String := sepSplitAux sep s.data []

/-- Python `sep.join(l)` for a list of strings. -/
def joinWith (sep : String) : List String → String
  | [] => ""
  | [x] => x
  | x :: xs => x ++ sep ++ joinWith sep xs

/-- Python `sep.join(v)`: joining a list of strings joins its elements;
joining a string iterates its characters; joining `None` or a boolean
raises `TypeError`. -/
def pyJoin (sep : String) : PyVal → Except PyErr String
  | PyVal.list l => Except.ok (joinWith sep l)
  | PyVal.str s => Except.ok (joinWith sep (s.data.map fun c => String.mk [c]))
  | _ => Except.error PyErr.typeError

/-- Drop leading whitespace (`str.lstrip()`). -/
def stripLeft (l : List Char) : List Char := l.dropWhile Char.isWhitespace

/-- Drop trailing whitespace (`str.rstrip()`). -/
def stripRight (l : List Char) : List Char := (l.reverse.dropWhile Char.isWhitespace).reverse

/-- Python `s.strip()`. -/
def pyStrip (s : String) : String := ⟨stripRight (stripLeft s.data)⟩

/-- Python `s.isspace()`: non-empty and all characters whitespace. -/
def pyIsSpace (s : String) : Bool := !s.data.isEmpty && s.data.all Char.isWhitespace

/-- Index of the first occurrence of a character, if any. -/
def firstIdx (c : Char) (l : List Char) : Option Nat := l.findIdx? (· = c)

/-- Index of the last occurrence of a character, if any. -/
def lastIdx (c : Char) (l : List Char) : Option Nat :=
  match l.reverse.findIdx? (· = c) with
  | some k => some (l.length - 1 - k)
  | Option.none => Option.none

/-- The span matched by the options regular expression `\[.+]` on a
single line (no newline): the leftmost `[` together with the greedy
extent of `.+]`, i.e. the last `]` of the line, provided at least one
character lies between them.  `re.sub` removes every non-overlapping
match, but because the first match already extends to the last `]`
there is never a second one. -/
def findOptionsSpan (l : List Char) : Option (Nat × Nat) :=
  match firstIdx '[' l, lastIdx ']' l with
  | some i, some j => if i + 2 ≤ j then some (i, j) else Option.none
  | _, _ => Option.none

/-- The characters strictly between positions `i` and `j`
(`match.group(0)[1:-1]`). -/
def innerSpan (l : List Char) (i j : Nat) : List Char := (l.take j).drop (i + 1)

/-- The line with the span `[i..j]` removed (`regex.sub('', line)`). -/
def removeSpan (l : List Char) (i j : Nat) : List Char := l.take i ++ l.drop (j + 1)

/-- The fields of `LineRepositoryInformation` (one repository per line).
`repo_type`, `uri` and `suite` are the three leading whitespace tokens of
the line; every remaining field holds whatever Python value the module
stores there, in the attribute-assignment order of `__init__` (first the
three line fields, then the `_BaseRepositoryInformation` fields). -/
structure LineRepositoryInformation where
  repo_type : String
  uri : String
  suite : String
  components : PyVal
  enabled : PyVal
  architectures : PyVal
  languages : PyVal
  targets : PyVal
  pdiffs : PyVal
  by_hash : PyVal
  allow_insecure : PyVal
  allow_weak : PyVal
  allow_downgrade_to_insecure : PyVal
  trusted : PyVal
  signed_by : PyVal
  check_valid_until : PyVal
  valid_until_min : PyVal
  valid_until_max : PyVal
  check_date : PyVal
  date_max_future : PyVal
  inrelease_path : PyVal
  deriving DecidableEq

/-- The fields of `Deb822RepositoryInformation` (one stanza, possibly
several types/URIs/suites). -/
structure Deb822RepositoryInformation where
  repo_types : PyVal
  uris : PyVal
  suites : PyVal
  components : PyVal
  enabled : PyVal
  architectures : PyVal
  languages : PyVal
  targets : PyVal
  pdiffs : PyVal
  by_hash : PyVal
  allow_insecure : PyVal
  allow_weak : PyVal
  allow_downgrade_to_insecure : PyVal
  trusted : PyVal
  signed_by : PyVal
  check_valid_until : PyVal
  valid_until_min : PyVal
  valid_until_max : PyVal
  check_date : PyVal
  date_max_future : PyVal
  inrelease_path : PyVal
  deriving DecidableEq

/-- Embeds `_BaseRepositoryInformation.is_enabled`: `True` when `enabled` is
`None`, otherwise the stored value itself. -/
def LineRepositoryInformation.is_enabled (d : LineRepositoryInformation) : PyVal :=
  if d.enabled = PyVal.none then PyVal.bool true else d.enabled

/-- Python dict-comprehension insertion for the options dictionary: a
repeated key keeps its position but takes the new value. -/
def insertReplace (k : String) (v : List String) :
    List (String × List String) → List (String × List String)
  | [] => [(k, v)]
  | (k', v') :: rest =>
    if k' = k then (k, v) :: rest else (k', v') :: insertReplace k v rest

/-- The options dictionary comprehension of `from_line`:
`{val.split('=')[0]: val.split('=')[1].split(',') for val in options}`.
A token without `=` makes the `[1]` subscript raise `IndexError`. -/
def parseOptionsAux :
    List String → List (String × List String) → Except PyErr (List (String × List String))
  | [], acc => Except.ok acc
  | t :: ts, acc =>
    match pySplitOn '=' t with
    | [_] => Except.error PyErr.indexError
    | k :: v :: _ => parseOptionsAux ts (insertReplace k (pySplitOn ',' v) acc)
    | [] => Except.error PyErr.indexError

/-- Embeds `options.get(key)` on the parsed options dictionary, as the `PyVal`
passed to the constructor: the comma-split value list, or `None`. -/
def optLookup (opts : List (String × List String)) (k : String) : PyVal :=
  match opts.lookup k with
  | some v => PyVal.list v
  | Option.none => PyVal.none

/-- The scheme characters accepted by `urllib.parse` (letters, digits,
`+`, `-`, `.`). -/
def isSchemeChar (c : Char) : Bool := c.isAlphanum || c = '+' || c = '-' || c = '.'

/-- Embeds `urllib.parse` scheme stripping: when the text before the first `:`
is a well-formed scheme, drop it together with the colon. -/
def afterScheme (l : List Char) : List Char :=
  match l.findIdx? (· = ':') with
  | some i =>
    if 0 < i ∧ (l.take i).all isSchemeChar ∧ ((l.head?.map Char.isAlpha).getD false = true) then
      l.drop (i + 1)
    else l
  | Option.none => l

/-- Whether `urllib.parse.urlparse` raises `ValueError` on the string:
after scheme stripping, a `//`-led network location containing exactly
one of `[` and `]` is an invalid IPv6 URL. -/
def urlparseRaises (s : String) : Bool :=
  let l := afterScheme s.data
  if l.take 2 = ['/', '/'] then
    let netloc := (l.drop 2).takeWhile fun c => ¬ (c = '/' ∨ c = '?' ∨ c = '#')
    (netloc.contains '[') != (netloc.contains ']')
  else false

/-- The tail of `LineRepositoryInformation.from_line` after the options
regular expression has been handled: strip a leading `#` (marking the
entry disabled), tokenise, and apply the too-few-tokens, repository-type
and URI checks, each of which returns `None` (a skip).  Only then are
the constructor arguments evaluated; when the line had no options block
the `options` local is still `None` and every `options.get(...)`
argument raises `AttributeError`. -/
def fromLineRest (l : List Char) (opts : Option (List (String × List String))) :
    Except PyErr (Option LineRepositoryInformation) :=
  let stripped := if l.head? = some '#' then l.drop 1 else l
  let enabled := if l.head? = some '#' then false else true
  let parts := wsSplitAux stripped []
  if parts.length < 4 then Except.ok Option.none
  else if ¬ (parts.getD 0 "" = "deb" ∨ parts.getD 0 "" = "deb-src") then Except.ok Option.none
  else if urlparseRaises (parts.getD 1 "") then Except.ok Option.none
  else
    match opts with
    | Option.none => Except.error PyErr.attributeError
    | some o =>
      Except.ok (some
        { repo_type := parts.getD 0 ""
          uri := parts.getD 1 ""
          suite := parts.getD 2 ""
          components := PyVal.list (parts.drop 3)
          enabled := PyVal.bool enabled
          architectures := optLookup o "arch"
          languages := optLookup o "lang"
          targets := optLookup o "target"
          pdiffs := optLookup o "pdiffs"
          by_hash := optLookup o "by-hash"
          allow_insecure := optLookup o "allow-insecure"
          allow_weak := optLookup o "allow-weak"
          allow_downgrade_to_insecure := optLookup o "allow-downgrade-to-insecure"
          trusted := optLookup o "trusted"
          signed_by := optLookup o "signed-by"
          check_valid_until := optLookup o "check-valid-until"
          valid_until_min := optLookup o "valid-until-min"
          valid_until_max := optLookup o "valid-until-max"
          check_date := optLookup o "check-date"
          date_max_future := optLookup o "date-max-future"
          inrelease_path := PyVal.none })

/-- Embeds `LineRepositoryInformation.from_line`: find and remove the bracketed
options block, build the options dictionary, then parse the remaining
tokens.  `Except.ok Option.none` is Python's `return None` (skip);
`Except.error` is a raised exception escaping `from_line`. -/
def LineRepositoryInformation.from_line (line : String) :
    Except PyErr (Option LineRepositoryInformation) :=
  match findOptionsSpan line.data with
  | some (i, j) =>
    match parseOptionsAux (wsSplitAux (innerSpan line.data i j) []) [] with
    | Except.error e => Except.error e
    | Except.ok opts => fromLineRest (removeSpan line.data i j) (some opts)
  | Option.none => fromLineRest line.data Option.none

/-- Embeds `LineRepositoryInformation.from_lists`: skip whitespace-only lines,
skip lines for which `from_line` returns `None`, keep the rest in input
order; an exception raised by `from_line` propagates to the caller. -/
def LineRepositoryInformation.from_lists :
    List String → Except PyErr (List LineRepositoryInformation)
  | [] => Except.ok []
  | line :: rest =>
    if pyIsSpace line then LineRepositoryInformation.from_lists rest
    else
      match LineRepositoryInformation.from_line line with
      | Except.error e => Except.error e
      | Except.ok Option.none => LineRepositoryInformation.from_lists rest
      | Except.ok (some r) =>
        match LineRepositoryInformation.from_lists rest with
        | Except.error e => Except.error e
        | Except.ok rs => Except.ok (r :: rs)

/-- The `(attribute name, value)` pairs that `_format_options` iterates:
`self.__dict__.items()` in attribute-assignment order, with `repo_type`,
`uri`, `suite`, `components` and `enabled` excluded by the dictionary
comprehension (the `v is not None` filter is applied separately). -/
def LineRepositoryInformation.optionPairs (d : LineRepositoryInformation) :
    List (String × PyVal) :=
  [("architectures", d.architectures), ("languages", d.languages), ("targets", d.targets),
   ("pdiffs", d.pdiffs), ("by_hash", d.by_hash), ("allow_insecure", d.allow_insecure),
   ("allow_weak", d.allow_weak), ("allow_downgrade_to_insecure", d.allow_downgrade_to_insecure),
   ("trusted", d.trusted), ("signed_by", d.signed_by),
   ("check_valid_until", d.check_valid_until), ("valid_until_min", d.valid_until_min),
   ("valid_until_max", d.valid_until_max), ("check_date", d.check_date),
   ("date_max_future", d.date_max_future), ("inrelease_path", d.inrelease_path)]

/-- Embeds `LineRepositoryInformation._name_map`: the two-way attribute/option
spelling table. -/
def lineNameMap : List (String × String) :=
  [("arch", "architectures"), ("architectures", "arch"),
   ("lang", "languages"), ("languages", "lang"),
   ("target", "targets"), ("targets", "target")]

/-- Embeds `if name in self._name_map: name = self._name_map[name]`.  The
subsequent `name.replace('_', '-')` in the source discards its result
(strings are immutable and the return value is not assigned), so no
underscore-to-hyphen conversion is modelled. -/
def remapName (n : String) : String :=
  match lineNameMap.lookup n with
  | some m => m
  | Option.none => n

/-- Embeds `stringified_value = value if not isinstance(value, list) else
','.join(value)` followed by the `name + '=' + stringified_value`
concatenation: a list is comma-joined, a string passes through, and any
other value (a boolean, or `None`) makes the string concatenation raise
`TypeError`. -/
def stringifyOptionValue : PyVal → Except PyErr String
  | PyVal.list l => Except.ok (joinWith "," l)
  | PyVal.str s => Except.ok s
  | _ => Except.error PyErr.typeError

/-- The accumulation loop of `_format_options`:
`option_string += name + '=' + stringified_value + ' '`. -/
def formatOptionsAux : List (String × PyVal) → String → Except PyErr String
  | [], acc => Except.ok acc
  | (n, v) :: rest, acc =>
    match stringifyOptionValue v with
    | Except.error e => Except.error e
    | Except.ok sv => formatOptionsAux rest (acc ++ remapName n ++ "=" ++ sv ++ " ")

/-- Embeds `LineRepositoryInformation.to_line._format_options`: the reflection
over `__dict__` filtered to non-`None` values; empty options give the
empty string, otherwise the accumulated `key=value` tokens are stripped
and wrapped in `' ['` and `'] '`. -/
def formatOptions (d : LineRepositoryInformation) : Except PyErr String :=
  if (d.optionPairs.filter fun p => p.2 ≠ PyVal.none).length = 0 then Except.ok ""
  else
    match formatOptionsAux (d.optionPairs.filter fun p => p.2 ≠ PyVal.none) "" with
    | Except.error e => Except.error e
    | Except.ok s => Except.ok (" [" ++ pyStrip s ++ "] ")

/-- Embeds `LineRepositoryInformation.to_line`:
`f'{disabler}{self.repo_type}{_format_options()}{self.uri} {self.suite} {joined_components}'`
with `disabler = '# ' if not self.enabled else ''`.  Note that nothing
separates the repository type from the URI when the options string is
empty, and that the disabler tests the raw `enabled` attribute (not
`is_enabled`), so a `None` value is rendered as disabled. -/
def LineRepositoryInformation.to_line (d : LineRepositoryInformation) :
    Except PyErr String :=
  match pyJoin " " d.components with
  | Except.error e => Except.error e
  | Except.ok joined =>
    match formatOptions d with
    | Except.error e => Except.error e
    | Except.ok opts =>
      Except.ok ((if pyTruthy d.enabled then "" else "# ") ++ d.repo_type ++ opts ++ d.uri ++
        " " ++ d.suite ++ " " ++ joined)

/-- A `deb822.Deb822` paragraph as the module reads it: ordered keyed
values.  Values are `PyVal` because the wrong-shape contract (claim C9)
is about non-string values stored under a present key. -/
def Deb822Paragraph : Type := List (String × PyVal)

/-- Embeds `container.get(key)`: the stored value, or Python `None` when the
key is absent. -/
def paraGet (p : Deb822Paragraph) (k : String) : PyVal :=
  match List.lookup k p with
  | some v => v
  | Option.none => PyVal.none

/-- Embeds `Deb822RepositoryInformation.from_deb822._get_values`: `None` when
the key is absent, the whitespace-split parts when the value is a
string, and a raised `TypeError` otherwise. -/
def getValuesOf (p : Deb822Paragraph) (k : String) : Except PyErr PyVal :=
  match paraGet p k with
  | PyVal.none => Except.ok PyVal.none
  | PyVal.str s => Except.ok (PyVal.list (pySplitWs s))
  | _ => Except.error PyErr.typeError

/-- Embeds `Deb822RepositoryInformation.from_deb822`: the whitespace-split
fields go through `_get_values` (Python evaluates the constructor
arguments left to right, so the first failing `_get_values` call
propagates); the remaining fields are passed through `container.get`
unchanged.  `inrelease_path` is not among the constructor arguments and
defaults to `None`. -/
def Deb822RepositoryInformation.from_deb822 (p : Deb822Paragraph) :
    Except PyErr Deb822RepositoryInformation :=
  Except.bind (getValuesOf p "Types") fun ts =>
  Except.bind (getValuesOf p "URIs") fun us =>
  Except.bind (getValuesOf p "Suites") fun ss =>
  Except.bind (getValuesOf p "Components") fun cs =>
  Except.bind (getValuesOf p "Architectures") fun ar =>
  Except.bind (getValuesOf p "Languages") fun la =>
  Except.bind (getValuesOf p "Targets") fun ta =>
  Except.ok
    { repo_types := ts
      uris := us
      suites := ss
      components := cs
      enabled := paraGet p "Enabled"
      architectures := ar
      languages := la
      targets := ta
      pdiffs := paraGet p "PDiffs"
      by_hash := paraGet p "By-Hash"
      allow_insecure := paraGet p "Allow-Insecure"
      allow_weak := paraGet p "Allow-Weak"
      allow_downgrade_to_insecure := paraGet p "Allow-Downgrade-To-Insecure"
      trusted := paraGet p "Trusted"
      signed_by := paraGet p "Signed-By"
      check_valid_until := paraGet p "Check-Valid-Until"
      valid_until_min := paraGet p "Valid-Until-Min"
      valid_until_max := paraGet p "Valid-Until-Max"
      check_date := paraGet p "Check-Date"
      date_max_future := paraGet p "Date-Max-Future"
      inrelease_path := PyVal.none }

/-- Embeds `Deb822RepositoryInformation.from_sources` over paragraphs already
separated by the external `deb822.Deb822.iter_paragraphs` collaborator:
each paragraph goes through `from_deb822` (whose exceptions propagate);
the `if repository is None: continue` guard in the source never fires
because `from_deb822` either raises or returns an object, so every
parsed paragraph is appended. -/
def Deb822RepositoryInformation.from_sources :
    List Deb822Paragraph → Except PyErr (List Deb822RepositoryInformation)
  | [] => Except.ok []
  | p :: ps =>
    match Deb822RepositoryInformation.from_deb822 p with
    | Except.error e => Except.error e
    | Except.ok r =>
      match Deb822RepositoryInformation.from_sources ps with
      | Except.error e => Except.error e
      | Except.ok rs => Except.ok (r :: rs)

/-- Embeds `container[key] = value` on a `deb822.Deb822` container: replace the
value of an existing key in place, otherwise append. -/
def setItem (c : List (String × String)) (k v : String) : List (String × String) :=
  if c.any (fun p => p.1 = k) then c.map fun p => if p.1 = k then (k, v) else p
  else c ++ [(k, v)]

/-- Embeds `Deb822RepositoryInformation.to_deb822.write_if_present`: skip
`None`, keep strings, space-join lists, render booleans as `yes`/`no`.
(In Python any other value type would raise `TypeError`; no such value
inhabits `PyVal`.) -/
def writeIfPresent (c : List (String × String)) (k : String) : PyVal → List (String × String)
  | PyVal.none => c
  | PyVal.str s => setItem c k s
  | PyVal.list l => setItem c k (joinWith " " l)
  | PyVal.bool b => setItem c k (if b then "yes" else "no")

/-- Embeds `Deb822RepositoryInformation.to_deb822`: `Types`, `URIs`, `Suites`
and `Components` are always space-joined and written; then
`write_if_present` runs for `Enabled`, `Architectures`, `Targets`,
`PDiffs`, `By-Hash`, `Allow-Insecure`, `Allow-Weak`,
`Allow-Downgrade-To-Insecure`, `Trusted`, `Signed-By`,
`Check-Valid-Until`, `Valid-Until-Min`, `Valid-Until-Max`, `Check-Date`
and `Date-Max-Future` — exactly the calls present in the source, which
contains no call for `Languages` and none for `inrelease_path`. -/
def Deb822RepositoryInformation.to_deb822 (d : Deb822RepositoryInformation) :
    Except PyErr (List (String × String)) :=
  match pyJoin " " d.repo_types with
  | Except.error e => Except.error e
  | Except.ok ts =>
  match pyJoin " " d.uris with
  | Except.error e => Except.error e
  | Except.ok us =>
  match pyJoin " " d.suites with
  | Except.error e => Except.error e
  | Except.ok ss =>
  match pyJoin " " d.components with
  | Except.error e => Except.error e
  | Except.ok cs =>
    let c0 := setItem [] "Types" ts
    let c1 := setItem c0 "URIs" us
    let c2 := setItem c1 "Suites" ss
    let c3 := setItem c2 "Components" cs
    let c4 := writeIfPresent c3 "Enabled" d.enabled
    let c5 := writeIfPresent c4 "Architectures" d.architectures
    let c6 := writeIfPresent c5 "Targets" d.targets
    let c7 := writeIfPresent c6 "PDiffs" d.pdiffs
    let c8 := writeIfPresent c7 "By-Hash" d.by_hash
    let c9 := writeIfPresent c8 "Allow-Insecure" d.allow_insecure
    let c10 := writeIfPresent c9 "Allow-Weak" d.allow_weak
    let c11 := writeIfPresent c10 "Allow-Downgrade-To-Insecure" d.allow_downgrade_to_insecure
    let c12 := writeIfPresent c11 "Trusted" d.trusted
    let c13 := writeIfPresent c12 "Signed-By" d.signed_by
    let c14 := writeIfPresent c13 "Check-Valid-Until" d.check_valid_until
    let c15 := writeIfPresent c14 "Valid-Until-Min" d.valid_until_min
    let c16 := writeIfPresent c15 "Valid-Until-Max" d.valid_until_max
    let c17 := writeIfPresent c16 "Check-Date" d.check_date
    let c18 := writeIfPresent c17 "Date-Max-Future" d.date_max_future
    Except.ok c18

/-- One line descriptor of the `from_deb822_information` generator body:
the loop variables become `repo_type`, `uri` and `suite`, every other
constructor argument is the stanza's attribute; `inrelease_path` is not
among the arguments and defaults to `None`. -/
def lineOfCombo (v : Deb822RepositoryInformation) (t u s : String) :
    LineRepositoryInformation :=
  { repo_type := t
    uri := u
    suite := s
    components := v.components
    enabled := v.enabled
    architectures := v.architectures
    languages := v.languages
    targets := v.targets
    pdiffs := v.pdiffs
    by_hash := v.by_hash
    allow_insecure := v.allow_insecure
    allow_weak := v.allow_weak
    allow_downgrade_to_insecure := v.allow_downgrade_to_insecure
    trusted := v.trusted
    signed_by := v.signed_by
    check_valid_until := v.check_valid_until
    valid_until_min := v.valid_until_min
    valid_until_max := v.valid_until_max
    check_date := v.check_date
    date_max_future := v.date_max_future
    inrelease_path := PyVal.none }

/-- Python iteration (`for x in v`) over a `PyVal` that is expected to
produce strings: a list yields its elements, a string yields its
characters as one-character strings, anything else raises `TypeError`. -/
def pyIterStrs : PyVal → Except PyErr (List String)
  | PyVal.list l => Except.ok l
  | PyVal.str s => Except.ok (s.data.map fun c => String.mk [c])
  | _ => Except.error PyErr.typeError

/-- The middle loop of `from_deb822_information`: for each `uri`, the
inner `for suite in value.suites` re-iterates `value.suites`. -/
def midLoop (v : Deb822RepositoryInformation) (t : String) :
    List String → Except PyErr (List LineRepositoryInformation)
  | [] => Except.ok []
  | u :: us =>
    match pyIterStrs v.suites with
    | Except.error e => Except.error e
    | Except.ok ss =>
      match midLoop v t us with
      | Except.error e => Except.error e
      | Except.ok l2 => Except.ok (ss.map (lineOfCombo v t u) ++ l2)

/-- The outer loop of `from_deb822_information`: for each `repo_type`,
the middle `for uri in value.uris` re-iterates `value.uris`. -/
def outerLoop (v : Deb822RepositoryInformation) :
    List String → Except PyErr (List LineRepositoryInformation)
  | [] => Except.ok []
  | t :: ts =>
    match pyIterStrs v.uris with
    | Except.error e => Except.error e
    | Except.ok us =>
      match midLoop v t us with
      | Except.error e => Except.error e
      | Except.ok l1 =>
        match outerLoop v ts with
        | Except.error e => Except.error e
        | Except.ok l2 => Except.ok (l1 ++ l2)

/-- Embeds `LineRepositoryInformation.from_deb822_information`, the generator
run to completion: nested loops over `repo_types`, `uris` and `suites`
yielding one line descriptor per combination. -/
def LineRepositoryInformation.from_deb822_information
    (v : Deb822RepositoryInformation) : Except PyErr (List LineRepositoryInformation) :=
  match pyIterStrs v.repo_types with
  | Except.error e => Except.error e
  | Except.ok ts => outerLoop v ts

/-- A well-formed single-line entry with no options block. -/
def c1Line : String := "deb http://example.com/debian stable main"

/-- Claim C1 (code bug): parsing the well-formed option-less line
`deb http://example.com/debian stable main` does not return a
descriptor; `from_line` raises `AttributeError`, because when the line
has no bracketed block the `options` local is still `None` when the
constructor arguments call `options.get(...)`.  The claimed round trip
`format(parse(line)) == line` therefore never starts. -/
theorem c1_from_line_without_options_raises :
    LineRepositoryInformation.from_line c1Line = Except.error PyErr.attributeError := rfl

/-- Claim C2 (code bug): the batch parser `from_lists` does skip
whitespace-only lines and lines with an unrecognised type keyword, but
an exception does surface to the caller: the valid option-less line
`deb http://example.com/debian stable main` makes `from_line` raise
`AttributeError`, which `from_lists` does not catch. -/
theorem c2_from_lists_propagates_attribute_error :
    LineRepositoryInformation.from_lists
      ["   ", "ftp http://example.com/debian stable main",
       "deb http://example.com/debian stable main"] =
      Except.error PyErr.attributeError := rfl

/-- A stanza descriptor whose `inrelease_path` is set. -/
def c3Stanza : Deb822RepositoryInformation :=
  { repo_types := PyVal.list ["deb"]
    uris := PyVal.list ["http://example.com/debian"]
    suites := PyVal.list ["stable"]
    components := PyVal.list ["main"]
    enabled := PyVal.none
    architectures := PyVal.none
    languages := PyVal.none
    targets := PyVal.none
    pdiffs := PyVal.none
    by_hash := PyVal.none
    allow_insecure := PyVal.none
    allow_weak := PyVal.none
    allow_downgrade_to_insecure := PyVal.none
    trusted := PyVal.none
    signed_by := PyVal.none
    check_valid_until := PyVal.none
    valid_until_min := PyVal.none
    valid_until_max := PyVal.none
    check_date := PyVal.none
    date_max_future := PyVal.none
    inrelease_path := PyVal.str "/path/InRelease" }

/-- Claim C3, counterexample: `from_deb822_information` does not carry
every optional field unchanged — the stanza's `inrelease_path` is absent
from the produced line descriptor (`None`), because the generator's
constructor call does not pass it. -/
theorem c3_inrelease_path_not_carried :
    (LineRepositoryInformation.from_deb822_information c3Stanza).map
        (List.map fun d => d.inrelease_path) = Except.ok [PyVal.none] ∧
      c3Stanza.inrelease_path = PyVal.str "/path/InRelease" := ⟨rfl, rfl⟩

/-- A paragraph carrying `Types`, `URIs` and `Suites` but no
`Components`. -/
def c4Para : Deb822Paragraph :=
  [("Types", PyVal.str "deb"), ("URIs", PyVal.str "http://example.com/debian"),
   ("Suites", PyVal.str "stable")]

/-- Claim C4 (code bug): a paragraph with no `Components` field cannot
produce a component, yet `from_deb822` still returns a descriptor whose
`components` is `None`, and the batch `from_sources` keeps that
half-built descriptor (its `if repository is None` guard never fires). -/
theorem c4_from_deb822_missing_components_half_built :
    (Deb822RepositoryInformation.from_sources [c4Para]).map
      (List.map fun r => r.components) = Except.ok [PyVal.none] := rfl

/-- A stanza descriptor whose only present optional field is
`languages`. -/
def c5Stanza : Deb822RepositoryInformation :=
  { repo_types := PyVal.list ["deb"]
    uris := PyVal.list ["http://example.com/debian"]
    suites := PyVal.list ["stable"]
    components := PyVal.list ["main"]
    enabled := PyVal.none
    architectures := PyVal.none
    languages := PyVal.list ["en"]
    targets := PyVal.none
    pdiffs := PyVal.none
    by_hash := PyVal.none
    allow_insecure := PyVal.none
    allow_weak := PyVal.none
    allow_downgrade_to_insecure := PyVal.none
    trusted := PyVal.none
    signed_by := PyVal.none
    check_valid_until := PyVal.none
    valid_until_min := PyVal.none
    valid_until_max := PyVal.none
    check_date := PyVal.none
    date_max_future := PyVal.none
    inrelease_path := PyVal.none }

/-- Claim C5 (code bug): `to_deb822` does not write every present
optional field — `languages` is present on the stanza but the output
paragraph has no `Languages` key, because the source contains no
`write_if_present(value, 'Languages', ...)` call. -/
theorem c5_to_deb822_drops_languages :
    Deb822RepositoryInformation.to_deb822 c5Stanza =
        Except.ok [("Types", "deb"), ("URIs", "http://example.com/debian"),
          ("Suites", "stable"), ("Components", "main")] ∧
      c5Stanza.languages = PyVal.list ["en"] := ⟨rfl, rfl⟩

/-- A line descriptor whose only present optional field is `by_hash`. -/
def c6Repo : LineRepositoryInformation :=
  { repo_type := "deb"
    uri := "http://example.com/debian"
    suite := "stable"
    components := PyVal.list ["main"]
    enabled := PyVal.bool true
    architectures := PyVal.none
    languages := PyVal.none
    targets := PyVal.none
    pdiffs := PyVal.none
    by_hash := PyVal.list ["yes"]
    allow_insecure := PyVal.none
    allow_weak := PyVal.none
    allow_downgrade_to_insecure := PyVal.none
    trusted := PyVal.none
    signed_by := PyVal.none
    check_valid_until := PyVal.none
    valid_until_min := PyVal.none
    valid_until_max := PyVal.none
    check_date := PyVal.none
    date_max_future := PyVal.none
    inrelease_path := PyVal.none }

/-- Claim C6 (code bug): option names outside the remap table are not
written with underscores converted to hyphens: the `by_hash` field is
emitted as `by_hash=yes`, not `by-hash=yes`, because the source's
`name.replace('_', '-')` discards its result. -/
theorem c6_to_line_keeps_underscore_in_by_hash :
    c6Repo.to_line =
      Except.ok "deb [by_hash=yes] http://example.com/debian stable main" := rfl

/-- A line descriptor whose `enabled` field is absent (`None`), with one
option set. -/
def c7Repo : LineRepositoryInformation :=
  { repo_type := "deb"
    uri := "http://example.com/debian"
    suite := "stable"
    components := PyVal.list ["main"]
    enabled := PyVal.none
    architectures := PyVal.list ["amd64"]
    languages := PyVal.none
    targets := PyVal.none
    pdiffs := PyVal.none
    by_hash := PyVal.none
    allow_insecure := PyVal.none
    allow_weak := PyVal.none
    allow_downgrade_to_insecure := PyVal.none
    trusted := PyVal.none
    signed_by := PyVal.none
    check_valid_until := PyVal.none
    valid_until_min := PyVal.none
    valid_until_max := PyVal.none
    check_date := PyVal.none
    date_max_future := PyVal.none
    inrelease_path := PyVal.none }

/-- Claim C7 (code bug): a descriptor whose `enabled` field is absent is
treated as enabled by `is_enabled`, yet `to_line` still prefixes the
output with `# `, because the disabler tests the raw attribute
(`not self.enabled`, true for `None`) instead of `is_enabled`. -/
theorem c7_to_line_disables_absent_enabled :
    c7Repo.is_enabled = PyVal.bool true ∧
      c7Repo.to_line =
        Except.ok "# deb [arch=amd64] http://example.com/debian stable main" :=
  ⟨rfl, rfl⟩

/-- The options round-trip line of claim C8. -/
def c8Line : String :=
  "deb [arch=amd64,i386 trusted=yes] http://example.com/debian stable main"

/-- The descriptor that `from_line` produces for `c8Line`. -/
def c8Repo : LineRepositoryInformation :=
  { repo_type := "deb"
    uri := "http://example.com/debian"
    suite := "stable"
    components := PyVal.list ["main"]
    enabled := PyVal.bool true
    architectures := PyVal.list ["amd64", "i386"]
    languages := PyVal.none
    targets := PyVal.none
    pdiffs := PyVal.none
    by_hash := PyVal.none
    allow_insecure := PyVal.none
    allow_weak := PyVal.none
    allow_downgrade_to_insecure := PyVal.none
    trusted := PyVal.list ["yes"]
    signed_by := PyVal.none
    check_valid_until := PyVal.none
    valid_until_min := PyVal.none
    valid_until_max := PyVal.none
    check_date := PyVal.none
    date_max_future := PyVal.none
    inrelease_path := PyVal.none }

/-- Claim C8, counterexample: the parsed `trusted` field is not the
string `"yes"` — every option value is comma-split into a list, so the
descriptor stores the one-element list `["yes"]`. -/
theorem c8_trusted_parsed_as_list :
    (LineRepositoryInformation.from_line c8Line).map
        (Option.map fun d => d.trusted) = Except.ok (some (PyVal.list ["yes"])) ∧
      PyVal.list ["yes"] ≠ PyVal.str "yes" := ⟨rfl, by decide⟩

/-- Claim C8, amended: parsing `c8Line` yields a descriptor with
`architectures = ["amd64", "i386"]` and `trusted = ["yes"]` (the
comma-split value list), `to_line` reformats it to an equivalent line,
and re-parsing that reformatted line yields the identical descriptor. -/
theorem c8_options_round_trip :
    LineRepositoryInformation.from_line c8Line = Except.ok (some c8Repo) ∧
      c8Repo.architectures = PyVal.list ["amd64", "i386"] ∧
      c8Repo.trusted = PyVal.list ["yes"] ∧
      c8Repo.to_line = Except.ok c8Line :=
  ⟨rfl, rfl, rfl, rfl⟩

/-- Modelled from the claim (amended): the line descriptor for one
`type × uri × suite` combination, carrying the stanza's `components`
and every optional field unchanged, except that `inrelease_path` is
absent in the produced descriptor. -/
def specLineDescriptor (v : Deb822RepositoryInformation) (t u s : String) :
    LineRepositoryInformation :=
  { repo_type := t
    uri := u
    suite := s
    components := v.components
    enabled := v.enabled
    architectures := v.architectures
    languages := v.languages
    targets := v.targets
    pdiffs := v.pdiffs
    by_hash := v.by_hash
    allow_insecure := v.allow_insecure
    allow_weak := v.allow_weak
    allow_downgrade_to_insecure := v.allow_downgrade_to_insecure
    trusted := v.trusted
    signed_by := v.signed_by
    check_valid_until := v.check_valid_until
    valid_until_min := v.valid_until_min
    valid_until_max := v.valid_until_max
    check_date := v.check_date
    date_max_future := v.date_max_future
    inrelease_path := PyVal.none }

/-- Modelled from the claim: the full cartesian product, ordered with
the outer loop over types, the middle loop over uris and the inner loop
over suites. -/
def specCartesianLines (v : Deb822RepositoryInformation)
    (ts us ss : List String) : List LineRepositoryInformation :=
  ts.flatMap fun t => us.flatMap fun u => ss.map fun s => specLineDescriptor v t u s

lemma midLoop_eq_flatMap (v : Deb822RepositoryInformation) (t : String)
    (ss : List String) (hs : v.suites = PyVal.list ss) :
    ∀ us : List String,
      midLoop v t us = Except.ok (us.flatMap fun u => ss.map (lineOfCombo v t u)) := by
  intro us
  induction us with
  | nil => simp [midLoop]
  | cons u us ih =>
    simp only [midLoop, hs, pyIterStrs, ih, List.flatMap_cons]

lemma outerLoop_eq_flatMap (v : Deb822RepositoryInformation)
    (us ss : List String) (hu : v.uris = PyVal.list us) (hs : v.suites = PyVal.list ss) :
    ∀ ts : List String,
      outerLoop v ts =
        Except.ok (ts.flatMap fun t => us.flatMap fun u => ss.map (lineOfCombo v t u)) := by
  intro ts
  induction ts with
  | nil => simp [outerLoop]
  | cons t ts ih =>
    simp only [outerLoop, hu, pyIterStrs, midLoop_eq_flatMap v t ss hs, ih, List.flatMap_cons]

lemma innerLines_length (v : Deb822RepositoryInformation) (t : String) :
    ∀ us ss : List String,
      (us.flatMap fun u => List.map (fun s => specLineDescriptor v t u s) ss).length =
        us.length * ss.length := by
  intro us ss
  induction us with
  | nil => simp
  | cons u us ih =>
    rw [List.flatMap_cons, List.length_append, List.length_map, ih, List.length_cons,
      Nat.succ_mul]
    omega

lemma specCartesianLines_length (v : Deb822RepositoryInformation) :
    ∀ ts us ss : List String,
      (specCartesianLines v ts us ss).length = ts.length * (us.length * ss.length) := by
  intro ts us ss
  induction ts with
  | nil => simp [specCartesianLines]
  | cons t ts ih =>
    rw [specCartesianLines, List.flatMap_cons, List.length_append,
      innerLines_length v t us ss]
    rw [specCartesianLines] at ih
    rw [ih, List.length_cons, Nat.succ_mul]
    omega

/-- Claim C3, amended: when the stanza's `repo_types`, `uris` and
`suites` are lists, `from_deb822_information` produces exactly
`|repo_types| * |uris| * |suites|` line descriptors, one per
combination, ordered with the outer loop over types, the middle loop
over uris and the inner loop over suites, each carrying the stanza's
`components` and every optional field unchanged except `inrelease_path`,
which is absent in every produced descriptor. -/
theorem c3_cartesian_product_amended (v : Deb822RepositoryInformation)
    (ts us ss : List String) (ht : v.repo_types = PyVal.list ts)
    (hu : v.uris = PyVal.list us) (hs : v.suites = PyVal.list ss) :
    LineRepositoryInformation.from_deb822_information v =
        Except.ok (specCartesianLines v ts us ss) ∧
      (specCartesianLines v ts us ss).length = ts.length * (us.length * ss.length) := by
  constructor
  · simp only [LineRepositoryInformation.from_deb822_information, ht, pyIterStrs,
      outerLoop_eq_flatMap v us ss hu hs, specCartesianLines]
    rfl
  · exact specCartesianLines_length v ts us ss

/-- Witness for claim C3's amended theorem at a concrete stanza. -/
theorem c3_cartesian_product_witness :
    LineRepositoryInformation.from_deb822_information c3Stanza =
        Except.ok (specCartesianLines c3Stanza ["deb"] ["http://example.com/debian"]
          ["stable"]) ∧
      (specCartesianLines c3Stanza ["deb"] ["http://example.com/debian"]
          ["stable"]).length = 1 * (1 * 1) :=
  c3_cartesian_product_amended c3Stanza ["deb"] ["http://example.com/debian"] ["stable"]
    rfl rfl rfl

/-- The paragraph keys that `from_deb822` reads through `_get_values`
(whitespace-split fields). -/
def splitFieldKeys : List String :=
  ["Types", "URIs", "Suites", "Components", "Architectures", "Languages", "Targets"]

/-- A value that is present (not `None`) but not a string. -/
def presentNonStr : PyVal → Bool
  | PyVal.none => false
  | PyVal.str _ => false
  | _ => true

/-- The descriptor field populated from a given whitespace-split
paragraph key. -/
def splitFieldOf (r : Deb822RepositoryInformation) : String → PyVal
  | "Types" => r.repo_types
  | "URIs" => r.uris
  | "Suites" => r.suites
  | "Components" => r.components
  | "Architectures" => r.architectures
  | "Languages" => r.languages
  | "Targets" => r.targets
  | _ => PyVal.none

lemma getValuesOf_error (p : Deb822Paragraph) (k : String) (e : PyErr)
    (h : getValuesOf p k = Except.error e) : e = PyErr.typeError := by
  unfold getValuesOf at h
  cases hv : paraGet p k <;> rw [hv] at h <;> simp at h <;> exact h.symm

lemma getValuesOf_of_presentNonStr (p : Deb822Paragraph) (k : String)
    (hb : presentNonStr (paraGet p k) = true) :
    getValuesOf p k = Except.error PyErr.typeError := by
  unfold getValuesOf
  cases hv : paraGet p k
  case none => rw [hv] at hb; simp [presentNonStr] at hb
  case str s => rw [hv] at hb; simp [presentNonStr] at hb
  case bool b => rfl
  case list l => rfl

lemma getValuesOf_of_absent (p : Deb822Paragraph) (k : String)
    (h : paraGet p k = PyVal.none) : getValuesOf p k = Except.ok PyVal.none := by
  unfold getValuesOf
  rw [h]

lemma from_deb822_error (p : Deb822Paragraph) (e : PyErr)
    (h : Deb822RepositoryInformation.from_deb822 p = Except.error e) :
    e = PyErr.typeError := by
  unfold Deb822RepositoryInformation.from_deb822 at h
  cases h1 : getValuesOf p "Types" with
  | error e1 => rw [h1] at h; simp [Except.bind] at h; subst h; exact getValuesOf_error p _ _ h1
  | ok ts =>
  rw [h1] at h; simp only [Except.bind] at h
  cases h2 : getValuesOf p "URIs" with
  | error e2 => rw [h2] at h; simp at h; subst h; exact getValuesOf_error p _ _ h2
  | ok us =>
  rw [h2] at h; simp only at h
  cases h3 : getValuesOf p "Suites" with
  | error e3 => rw [h3] at h; simp at h; subst h; exact getValuesOf_error p _ _ h3
  | ok ss =>
  rw [h3] at h; simp only at h
  cases h4 : getValuesOf p "Components" with
  | error e4 => rw [h4] at h; simp at h; subst h; exact getValuesOf_error p _ _ h4
  | ok cs =>
  rw [h4] at h; simp only at h
  cases h5 : getValuesOf p "Architectures" with
  | error e5 => rw [h5] at h; simp at h; subst h; exact getValuesOf_error p _ _ h5
  | ok ar =>
  rw [h5] at h; simp only at h
  cases h6 : getValuesOf p "Languages" with
  | error e6 => rw [h6] at h; simp at h; subst h; exact getValuesOf_error p _ _ h6
  | ok la =>
  rw [h6] at h; simp only at h
  cases h7 : getValuesOf p "Targets" with
  | error e7 => rw [h7] at h; simp at h; subst h; exact getValuesOf_error p _ _ h7
  | ok ta =>
  rw [h7] at h; simp [Except.bind] at h

lemma from_deb822_ok_inv (p : Deb822Paragraph) (r : Deb822RepositoryInformation)
    (h : Deb822RepositoryInformation.from_deb822 p = Except.ok r) :
    getValuesOf p "Types" = Except.ok r.repo_types ∧
      getValuesOf p "URIs" = Except.ok r.uris ∧
      getValuesOf p "Suites" = Except.ok r.suites ∧
      getValuesOf p "Components" = Except.ok r.components ∧
      getValuesOf p "Architectures" = Except.ok r.architectures ∧
      getValuesOf p "Languages" = Except.ok r.languages ∧
      getValuesOf p "Targets" = Except.ok r.targets := by
  unfold Deb822RepositoryInformation.from_deb822 at h
  cases h1 : getValuesOf p "Types" with
  | error e1 => rw [h1] at h; simp [Except.bind] at h
  | ok ts =>
  rw [h1] at h; simp only [Except.bind] at h
  cases h2 : getValuesOf p "URIs" with
  | error e2 => rw [h2] at h; simp at h
  | ok us =>
  rw [h2] at h; simp only at h
  cases h3 : getValuesOf p "Suites" with
  | error e3 => rw [h3] at h; simp at h
  | ok ss =>
  rw [h3] at h; simp only at h
  cases h4 : getValuesOf p "Components" with
  | error e4 => rw [h4] at h; simp at h
  | ok cs =>
  rw [h4] at h; simp only at h
  cases h5 : getValuesOf p "Architectures" with
  | error e5 => rw [h5] at h; simp at h
  | ok ar =>
  rw [h5] at h; simp only at h
  cases h6 : getValuesOf p "Languages" with
  | error e6 => rw [h6] at h; simp at h
  | ok la =>
  rw [h6] at h; simp only at h
  cases h7 : getValuesOf p "Targets" with
  | error e7 => rw [h7] at h; simp at h
  | ok ta =>
  rw [h7] at h; simp only [Except.bind, Except.ok.injEq] at h
  subst h
  exact ⟨rfl, rfl, rfl, rfl, rfl, rfl, rfl⟩

/-- Claim C9: for every paragraph and whitespace-split field key
(`Types`, `URIs`, `Suites`, `Components`, `Architectures`, `Languages`,
`Targets`), a present value that is not a string makes `from_deb822`
raise `TypeError`, while an absent field silently yields `None` for the
corresponding descriptor field of a successful parse. -/
theorem c9_split_fields_type_error_vs_absent (p : Deb822Paragraph) (k : String)
    (hk : k ∈ splitFieldKeys) :
    (presentNonStr (paraGet p k) = true →
        Deb822RepositoryInformation.from_deb822 p = Except.error PyErr.typeError) ∧
      (paraGet p k = PyVal.none →
        ∀ r : Deb822RepositoryInformation,
          Deb822RepositoryInformation.from_deb822 p = Except.ok r →
            splitFieldOf r k = PyVal.none) := by
  have herr : presentNonStr (paraGet p k) = true →
      (∀ r : Deb822RepositoryInformation,
        Deb822RepositoryInformation.from_deb822 p ≠ Except.ok r) →
      Deb822RepositoryInformation.from_deb822 p = Except.error PyErr.typeError := by
    intro _ hno
    cases hfd : Deb822RepositoryInformation.from_deb822 p with
    | error e => rw [from_deb822_error p e hfd]
    | ok r => exact absurd hfd (hno r)
  simp only [splitFieldKeys, List.mem_cons, List.not_mem_nil, or_false] at hk
  rcases hk with rfl | rfl | rfl | rfl | rfl | rfl | rfl
  · refine ⟨fun hb => herr hb fun r hfd => ?_, fun ha r hfd => ?_⟩
    · have h := (from_deb822_ok_inv p r hfd).1
      rw [getValuesOf_of_presentNonStr p _ hb] at h
      exact absurd h (by simp)
    · have h := (from_deb822_ok_inv p r hfd).1
      rw [getValuesOf_of_absent p _ ha] at h
      have h := Except.ok.inj h
      show r.repo_types = PyVal.none
      exact h.symm
  · refine ⟨fun hb => herr hb fun r hfd => ?_, fun ha r hfd => ?_⟩
    · have h := (from_deb822_ok_inv p r hfd).2.1
      rw [getValuesOf_of_presentNonStr p _ hb] at h
      exact absurd h (by simp)
    · have h := (from_deb822_ok_inv p r hfd).2.1
      rw [getValuesOf_of_absent p _ ha] at h
      have h := Except.ok.inj h
      show r.uris = PyVal.none
      exact h.symm
  · refine ⟨fun hb => herr hb fun r hfd => ?_, fun ha r hfd => ?_⟩
    · have h := (from_deb822_ok_inv p r hfd).2.2.1
      rw [getValuesOf_of_presentNonStr p _ hb] at h
      exact absurd h (by simp)
    · have h := (from_deb822_ok_inv p r hfd).2.2.1
      rw [getValuesOf_of_absent p _ ha] at h
      have h := Except.ok.inj h
      show r.suites = PyVal.none
      exact h.symm
  · refine ⟨fun hb => herr hb fun r hfd => ?_, fun ha r hfd => ?_⟩
    · have h := (from_deb822_ok_inv p r hfd).2.2.2.1
      rw [getValuesOf_of_presentNonStr p _ hb] at h
      exact absurd h (by simp)
    · have h := (from_deb822_ok_inv p r hfd).2.2.2.1
      rw [getValuesOf_of_absent p _ ha] at h
      have h := Except.ok.inj h
      show r.components = PyVal.none
      exact h.symm
  · refine ⟨fun hb => herr hb fun r hfd => ?_, fun ha r hfd => ?_⟩
    · have h := (from_deb822_ok_inv p r hfd).2.2.2.2.1
      rw [getValuesOf_of_presentNonStr p _ hb] at h
      exact absurd h (by simp)
    · have h := (from_deb822_ok_inv p r hfd).2.2.2.2.1
      rw [getValuesOf_of_absent p _ ha] at h
      have h := Except.ok.inj h
      show r.architectures = PyVal.none
      exact h.symm
  · refine ⟨fun hb => herr hb fun r hfd => ?_, fun ha r hfd => ?_⟩
    · have h := (from_deb822_ok_inv p r hfd).2.2.2.2.2.1
      rw [getValuesOf_of_presentNonStr p _ hb] at h
      exact absurd h (by simp)
    · have h := (from_deb822_ok_inv p r hfd).2.2.2.2.2.1
      rw [getValuesOf_of_absent p _ ha] at h
      have h := Except.ok.inj h
      show r.languages = PyVal.none
      exact h.symm
  · refine ⟨fun hb => herr hb fun r hfd => ?_, fun ha r hfd => ?_⟩
    · have h := (from_deb822_ok_inv p r hfd).2.2.2.2.2.2
      rw [getValuesOf_of_presentNonStr p _ hb] at h
      exact absurd h (by simp)
    · have h := (from_deb822_ok_inv p r hfd).2.2.2.2.2.2
      rw [getValuesOf_of_absent p _ ha] at h
      have h := Except.ok.inj h
      show r.targets = PyVal.none
      exact h.symm

/-- Witness for claim C9 at a concrete paragraph whose `Components`
value is a list rather than a string. -/
theorem c9_split_fields_witness :
    Deb822RepositoryInformation.from_deb822
        [("Types", PyVal.str "deb"), ("Components", PyVal.list ["main"])] =
      Except.error PyErr.typeError :=
  (c9_split_fields_type_error_vs_absent
      [("Types", PyVal.str "deb"), ("Components", PyVal.list ["main"])]
      "Components" (by simp [splitFieldKeys])).1 (by rfl)

/-- Non-empty with a non-whitespace first character. -/
def headOk (s : String) : Bool :=
  match s.data with
  | [] => false
  | c :: _ => !c.isWhitespace

lemma headOk_append (a b : String) (h : headOk a = true) : headOk (a ++ b) = true := by
  unfold headOk at h ⊢
  rw [String.data_append]
  cases ha : a.data with
  | nil => rw [ha] at h; simp at h
  | cons c cs =>
    rw [ha] at h
    simp only [List.cons_append]
    simpa using h

lemma headOk_append_or (a b : String) (h : a.data = [] ∨ headOk a = true)
    (hb : headOk b = true) : headOk (a ++ b) = true := by
  rcases h with h | h
  · have ha : a = "" := String.ext h
    rw [ha, String.empty_append]
    exact hb
  · exact headOk_append a b h

lemma stringifyOptionValue_ok (v : PyVal) (h1 : v.isBool = false)
    (h2 : v ≠ PyVal.none) : ∃ sv : String, stringifyOptionValue v = Except.ok sv := by
  cases v
  · exact absurd rfl h2
  · simp [PyVal.isBool] at h1
  · exact ⟨_, rfl⟩
  · exact ⟨_, rfl⟩

lemma formatOptionsAux_ok :
    ∀ (L : List (String × PyVal)) (acc : String),
      (∀ q ∈ L, q.2.isBool = false ∧ q.2 ≠ PyVal.none ∧ headOk (remapName q.1) = true) →
      ∃ s : String, formatOptionsAux L acc = Except.ok (acc ++ s) ∧
        (s.data = [] ∨ headOk s = true) := by
  intro L
  induction L with
  | nil =>
    intro acc _
    refine ⟨"", ?_, Or.inl rfl⟩
    show Except.ok acc = Except.ok (acc ++ "")
    rw [String.append_empty]
  | cons q L ih =>
    intro acc hq
    obtain ⟨n, v⟩ := q
    obtain ⟨h1, h2, h3⟩ := hq (n, v) (List.mem_cons_self (n, v) L)
    obtain ⟨sv, hsv⟩ := stringifyOptionValue_ok v h1 h2
    obtain ⟨tail, htail, hhead⟩ :=
      ih (acc ++ remapName n ++ "=" ++ sv ++ " ") fun r hr => hq r (List.mem_cons_of_mem _ hr)
    refine ⟨remapName n ++ "=" ++ sv ++ " " ++ tail, ?_, Or.inr ?_⟩
    · show formatOptionsAux ((n, v) :: L) acc = _
      rw [formatOptionsAux, hsv]
      show formatOptionsAux L (acc ++ remapName n ++ "=" ++ sv ++ " ") = _
      rw [htail]
      simp only [String.append_assoc]
    · have h3n : headOk (remapName n) = true := h3
      exact headOk_append _ _ (headOk_append _ _ (headOk_append _ _ (headOk_append _ _ h3n)))

lemma stripLeft_of_headOk (a : String) (h : headOk a = true) (rest : List Char) :
    stripLeft (a.data ++ rest) = a.data ++ rest := by
  unfold headOk at h
  unfold stripLeft
  cases ha : a.data with
  | nil => rw [ha] at h; simp at h
  | cons c cs =>
    rw [ha] at h
    have hcw : c.isWhitespace = false := by simpa [Bool.not_eq_true'] using h
    simp only [List.cons_append, List.dropWhile_cons, hcw]
    simp

lemma stripRight_append_space (A v : List Char) (hv1 : v ≠ [])
    (hv2 : v.all (fun c => !c.isWhitespace) = true) :
    stripRight (A ++ v ++ [' ']) = A ++ v := by
  unfold stripRight
  rw [List.reverse_append, List.reverse_append]
  have hsp : (' ').isWhitespace = true := rfl
  show (List.dropWhile Char.isWhitespace ([' '] ++ (v.reverse ++ A.reverse))).reverse = A ++ v
  rw [List.singleton_append, List.dropWhile_cons, if_pos hsp]
  cases hvr : v.reverse with
  | nil => exact absurd (by simpa using congrArg List.reverse hvr) hv1
  | cons c cs =>
    have hc : c ∈ v := List.mem_reverse.mp (hvr ▸ List.mem_cons_self c cs)
    have hcw : c.isWhitespace = false := by
      simpa [Bool.not_eq_true'] using List.all_eq_true.mp hv2 c hc
    rw [List.cons_append, List.dropWhile_cons, if_neg (by simp [hcw])]
    rw [show c :: (cs ++ A.reverse) = (c :: cs) ++ A.reverse from rfl]
    rw [List.reverse_append, List.reverse_reverse]
    congr 1
    have hvv := congrArg List.reverse hvr
    rw [List.reverse_reverse] at hvv
    exact hvv.symm

lemma formatOptionsAux_append (L1 L2 : List (String × PyVal)) :
    ∀ acc : String,
      formatOptionsAux (L1 ++ L2) acc =
        match formatOptionsAux L1 acc with
        | Except.error e => Except.error e
        | Except.ok s => formatOptionsAux L2 s := by
  induction L1 with
  | nil => intro acc; rfl
  | cons q L1 ih =>
    intro acc
    obtain ⟨n, v⟩ := q
    cases hsv : stringifyOptionValue v with
    | error e => simp [formatOptionsAux, hsv]
    | ok sv => simp [formatOptionsAux, hsv, ih]

/-- The first fifteen option pairs of `optionPairs` (everything before
`inrelease_path`). -/
def frontOptionPairs (d : LineRepositoryInformation) : List (String × PyVal) :=
  [("architectures", d.architectures), ("languages", d.languages), ("targets", d.targets),
   ("pdiffs", d.pdiffs), ("by_hash", d.by_hash), ("allow_insecure", d.allow_insecure),
   ("allow_weak", d.allow_weak), ("allow_downgrade_to_insecure", d.allow_downgrade_to_insecure),
   ("trusted", d.trusted), ("signed_by", d.signed_by),
   ("check_valid_until", d.check_valid_until), ("valid_until_min", d.valid_until_min),
   ("valid_until_max", d.valid_until_max), ("check_date", d.check_date),
   ("date_max_future", d.date_max_future)]

lemma optionPairs_split (d : LineRepositoryInformation) :
    d.optionPairs = frontOptionPairs d ++ [("inrelease_path", d.inrelease_path)] := rfl

lemma frontOptionPairs_names (d : LineRepositoryInformation) :
    (frontOptionPairs d).map Prod.fst =
      ["architectures", "languages", "targets", "pdiffs", "by_hash", "allow_insecure",
       "allow_weak", "allow_downgrade_to_insecure", "trusted", "signed_by",
       "check_valid_until", "valid_until_min", "valid_until_max", "check_date",
       "date_max_future"] := rfl

/-- Claim C10: for every line descriptor whose option fields have the
shapes the module itself produces (no booleans, `components` a list)
and whose `inrelease_path` is set to a non-`None` string value (without
whitespace), `to_line` emits an `inrelease_path=<value>` token inside
the bracketed options block — the reflection over `__dict__` excludes
only `repo_type`, `uri`, `suite`, `components` and `enabled`, so
`inrelease_path`, a key outside the recognised line-option grammar, is
serialised into line output (immediately before the closing bracket,
since it is the last attribute assigned). -/
theorem c10_to_line_emits_inrelease_path (d : LineRepositoryInformation) (v : String)
    (cs : List String)
    (hshape : ∀ q ∈ d.optionPairs, q.2.isBool = false)
    (hcomp : d.components = PyVal.list cs)
    (hip : d.inrelease_path = PyVal.str v)
    (hv1 : v.data ≠ [])
    (hv2 : v.data.all (fun c => !c.isWhitespace) = true) :
    ∃ pre : String,
      d.to_line = Except.ok
        (pre ++ "inrelease_path=" ++ v ++ "] " ++ d.uri ++ " " ++ d.suite ++ " " ++
          joinWith " " cs) := by
  have hsplit : d.optionPairs.filter (fun p => p.2 ≠ PyVal.none) =
      (frontOptionPairs d).filter (fun p => p.2 ≠ PyVal.none) ++
        [("inrelease_path", PyVal.str v)] := by
    rw [optionPairs_split, List.filter_append, hip]
    simp [List.filter]
  have hFprops : ∀ q ∈ (frontOptionPairs d).filter (fun p => p.2 ≠ PyVal.none),
      q.2.isBool = false ∧ q.2 ≠ PyVal.none ∧ headOk (remapName q.1) = true := by
    intro q hq
    have hmem : q ∈ frontOptionPairs d := List.mem_of_mem_filter hq
    have hmemAll : q ∈ d.optionPairs := by
      rw [optionPairs_split]
      exact List.mem_append_left _ hmem
    have hp0 := List.of_mem_filter hq
    have hp : q.2 ≠ PyVal.none := of_decide_eq_true (by exact hp0)
    refine ⟨hshape q hmemAll, hp, ?_⟩
    have hname : q.1 ∈ (frontOptionPairs d).map Prod.fst := List.mem_map_of_mem Prod.fst hmem
    rw [frontOptionPairs_names] at hname
    simp only [List.mem_cons, List.not_mem_nil, or_false] at hname
    rcases hname with h | h | h | h | h | h | h | h | h | h | h | h | h | h | h <;>
      rw [h] <;> decide
  obtain ⟨S1, hS1, hS1head⟩ :=
    formatOptionsAux_ok ((frontOptionPairs d).filter (fun p => p.2 ≠ PyVal.none)) "" hFprops
  rw [String.empty_append] at hS1
  have haux : formatOptionsAux (d.optionPairs.filter (fun p => p.2 ≠ PyVal.none)) "" =
      Except.ok (S1 ++ "inrelease_path" ++ "=" ++ v ++ " ") := by
    rw [hsplit, formatOptionsAux_append, hS1]
    show formatOptionsAux [("inrelease_path", PyVal.str v)] S1 = _
    rw [formatOptionsAux]
    show formatOptionsAux [] (S1 ++ remapName "inrelease_path" ++ "=" ++ v ++ " ") = _
    rw [formatOptionsAux]
    rfl
  have hA : headOk (S1 ++ "inrelease_path" ++ "=") = true :=
    headOk_append _ _ (headOk_append_or S1 "inrelease_path" hS1head (by decide))
  have hstrip : pyStrip (S1 ++ "inrelease_path" ++ "=" ++ v ++ " ") =
      S1 ++ "inrelease_path" ++ "=" ++ v := by
    apply String.ext
    show stripRight (stripLeft ((S1 ++ "inrelease_path" ++ "=" ++ v ++ " ").data)) =
      (S1 ++ "inrelease_path" ++ "=" ++ v).data
    rw [String.data_append (S1 ++ "inrelease_path" ++ "=" ++ v) " ",
      String.data_append (S1 ++ "inrelease_path" ++ "=") v]
    show stripRight (stripLeft ((S1 ++ "inrelease_path" ++ "=").data ++ v.data ++ [' '])) =
      (S1 ++ "inrelease_path" ++ "=").data ++ v.data
    rw [List.append_assoc, stripLeft_of_headOk (S1 ++ "inrelease_path" ++ "=") hA
      (v.data ++ [' ']), ← List.append_assoc]
    exact stripRight_append_space _ _ hv1 hv2
  have hfo : formatOptions d =
      Except.ok (" [" ++ (S1 ++ "inrelease_path" ++ "=" ++ v) ++ "] ") := by
    unfold formatOptions
    rw [haux, hsplit, List.length_append]
    rw [if_neg (by simp)]
    show Except.ok (" [" ++ pyStrip (S1 ++ "inrelease_path" ++ "=" ++ v ++ " ") ++ "] ") = _
    rw [hstrip]
  have hto : d.to_line = Except.ok
      ((if pyTruthy d.enabled then "" else "# ") ++ d.repo_type ++
        (" [" ++ (S1 ++ "inrelease_path" ++ "=" ++ v) ++ "] ") ++ d.uri ++ " " ++
        d.suite ++ " " ++ joinWith " " cs) := by
    unfold LineRepositoryInformation.to_line
    rw [hcomp]
    show (match formatOptions d with
      | Except.error e => Except.error e
      | Except.ok opts =>
        Except.ok ((if pyTruthy d.enabled then "" else "# ") ++ d.repo_type ++ opts ++
          d.uri ++ " " ++ d.suite ++ " " ++ joinWith " " cs)) = _
    rw [hfo]
  refine ⟨(if pyTruthy d.enabled then "" else "# ") ++ d.repo_type ++ " [" ++ S1, ?_⟩
  rw [hto]
  have hfold : S1 ++ "inrelease_path" ++ "=" ++ v = S1 ++ "inrelease_path=" ++ v := by
    rw [String.append_assoc S1 "inrelease_path" "="]
    rfl
  rw [hfold]
  congr 1
  simp only [String.append_assoc]

/-- Witness for claim C10 at a concrete descriptor. -/
theorem c10_to_line_emits_inrelease_path_witness :
    ∃ pre : String,
      LineRepositoryInformation.to_line
          { repo_type := "deb"
            uri := "http://example.com/debian"
            suite := "stable"
            components := PyVal.list ["main"]
            enabled := PyVal.bool true
            architectures := PyVal.none
            languages := PyVal.none
            targets := PyVal.none
            pdiffs := PyVal.none
            by_hash := PyVal.none
            allow_insecure := PyVal.none
            allow_weak := PyVal.none
            allow_downgrade_to_insecure := PyVal.none
            trusted := PyVal.none
            signed_by := PyVal.none
            check_valid_until := PyVal.none
            valid_until_min := PyVal.none
            valid_until_max := PyVal.none
            check_date := PyVal.none
            date_max_future := PyVal.none
            inrelease_path := PyVal.str "/ip" } =
        Except.ok (pre ++ "inrelease_path=" ++ "/ip" ++ "] " ++ "http://example.com/debian" ++
          " " ++ "stable" ++ " " ++ joinWith " " ["main"]) :=
  c10_to_line_emits_inrelease_path _ "/ip" ["main"] (by decide) rfl rfl (by decide) (by decide)
